import Mathlib

/-!
Verification of the BOXY optical-imaging reader (`mne/io/boxy/boxy.py`)
against its natural-language specification.  The Python source is shallowly
embedded: each line of a BOXY file is represented by the information the
reader extracts from it (which header marker it contains, the column-name
tokens and the numeric tokens its text yields), and the header scan, the
channel labelling, the `__init__` orchestration and the
`_read_segment_file` assembly are translated into executable Lean
functions over that representation.
-/

namespace Boxy

/-- Tag identifying which of the header markers recognised by
`RawBOXY.__init__` (boxy.py lines 127-147) a line of the file contains.
The marker substrings are mutually exclusive, so a line carries at most
one tag; a line with none of them is `plain`.  The numeric payload is the
leading token of the line, as parsed by `int`/`float` in the source. -/
inductive Tag where
  | dataEnds
  | detectorChannels (n : Nat)
  | externalMUXChannels (n : Nat)
  | auxiliaryChannels (n : Nat)
  | ccfFrequency (q : ℚ)
  | updateRate (q : ℚ)
  | updataRate (q : ℚ)
  | dataBegins
  | exmux
  | plain
  deriving DecidableEq

/-- One physical line of a BOXY file, carrying exactly the three views the
reader takes of it: the header marker it contains (`tag`), the column-name
tokens that the regex `\w+\-\w+|\w+\-\d+|\w+` extracts from it (`names`),
and the numeric tokens that the regex `[-+]?\d*\.?\d+` extracts from it
(`nums`).  BOXY data lines are tab-delimited, so `i_line.rsplit(' ')[0]`
in the source is the whole line and the regexes see all of its tokens. -/
structure BLine where
  tag : Tag := Tag.plain
  names : List String := []
  nums : List ℚ := []
  deriving DecidableEq

/-- Accumulator lists that `RawBOXY.__init__` fills while scanning the
file headers (boxy.py lines 116-147): one entry is appended per matching
header line, across all files of the recording.  `nonParsed` is the
per-file flag that an `exmux` line sets, turning the file's layout tag
into `'non-parsed'`. -/
structure ScanState where
  detect_num : List Nat := []
  source_num : List Nat := []
  aux_num : List Nat := []
  ccf_ha : List ℚ := []
  srate : List ℚ := []
  start_line : List Nat := []
  end_line : List Nat := []
  nonParsed : Bool := false
  deriving DecidableEq

/-- Effect of one non-terminator header line on the scan state (the
`elif` chain of `RawBOXY.__init__`, boxy.py lines 131-147):
`'Detector Channels'` appends to `detect_num`, `'External MUX Channels'`
to `source_num`, `'Auxiliary Channels'` to `aux_num`,
`'Waveform (CCF) Frequency (Hz)'` to `ccf_ha`, both spellings of the
update-rate label to `srate`; a `'#DATA BEGINS'` marker at line `n`
appends `n + 2` to `start_line` ("data should start a couple lines
later"); an `'exmux'` line flips the layout flag. -/
def stepLine (n : Nat) (t : Tag) (st : ScanState) : ScanState :=
  match t with
  | Tag.detectorChannels k => { st with detect_num := st.detect_num ++ [k] }
  | Tag.externalMUXChannels k => { st with source_num := st.source_num ++ [k] }
  | Tag.auxiliaryChannels k => { st with aux_num := st.aux_num ++ [k] }
  | Tag.ccfFrequency q => { st with ccf_ha := st.ccf_ha ++ [q] }
  | Tag.updateRate q => { st with srate := st.srate ++ [q] }
  | Tag.updataRate q => { st with srate := st.srate ++ [q] }
  | Tag.dataBegins => { st with start_line := st.start_line ++ [n + 2] }
  | Tag.exmux => { st with nonParsed := true }
  | _ => st

/-- Header scan of one file (`RawBOXY.__init__` lines 124-147): lines are
visited with 1-based numbers starting at `n`; the first line containing
`'#DATA ENDS'` appends `line_num - 1` to `end_line` ("data ends just
before this") and stops the scan; every other line updates the state via
`stepLine`. -/
def scanLines (n : Nat) (ls : List BLine) (st : ScanState) : ScanState :=
  match ls with
  | [] => st
  | l :: rest =>
    if l.tag = Tag.dataEnds then { st with end_line := st.end_line ++ [n - 1] }
    else scanLines (n + 1) rest (stepLine n l.tag st)

theorem scanLines_cons (n : Nat) (l : BLine) (rest : List BLine) (st : ScanState) :
    scanLines n (l :: rest) st =
      if l.tag = Tag.dataEnds then { st with end_line := st.end_line ++ [n - 1] }
      else scanLines (n + 1) rest (stepLine n l.tag st) := rfl

theorem stepLine_end_line (n : Nat) (t : Tag) (st : ScanState) :
    (stepLine n t st).end_line = st.end_line := by
  cases t <;> rfl

theorem stepLine_start_mono (n : Nat) (t : Tag) (st : ScanState) {x : Nat}
    (hx : x ∈ st.start_line) : x ∈ (stepLine n t st).start_line := by
  cases t <;> simp [stepLine] <;> first | exact hx | exact Or.inl hx

/-- A scan only appends to `end_line`: if the terminator heads a
dataEnds-free prefix, the recorded data-end line is one less than the
terminator's line number. -/
theorem scanLines_end_line_eq (p : List BLine) (d : BLine) (s : List BLine)
    (hp : ∀ l ∈ p, l.tag ≠ Tag.dataEnds) (hd : d.tag = Tag.dataEnds) :
    ∀ (n : Nat) (st : ScanState),
      (scanLines n (p ++ d :: s) st).end_line = st.end_line ++ [n + p.length - 1] := by
  induction p with
  | nil =>
    intro n st
    rw [List.nil_append, scanLines_cons, if_pos hd]
    simp
  | cons l p ih =>
    intro n st
    have hl : l.tag ≠ Tag.dataEnds := hp l (List.mem_cons_self l p)
    have hrec : ∀ l' ∈ p, l'.tag ≠ Tag.dataEnds := fun l' h => hp l' (List.mem_cons_of_mem l h)
    have harith : (n + 1) + p.length - 1 = n + (l :: p).length - 1 := by
      simp only [List.length_cons]; omega
    rw [List.cons_append, scanLines_cons, if_neg hl,
      ih hrec (n + 1) (stepLine n l.tag st), stepLine_end_line, harith]

theorem scanLines_start_mono (ls : List BLine) :
    ∀ (n : Nat) (st : ScanState) {x : Nat}, x ∈ st.start_line →
      x ∈ (scanLines n ls st).start_line := by
  induction ls with
  | nil => intro n st x hx; simpa [scanLines] using hx
  | cons l rest ih =>
    intro n st x hx
    by_cases h : l.tag = Tag.dataEnds
    · rw [scanLines_cons, if_pos h]; exact hx
    · rw [scanLines_cons, if_neg h]
      exact ih (n + 1) _ (stepLine_start_mono n l.tag st hx)

/-- A `'#DATA BEGINS'` marker at 0-based position `i` of a dataEnds-free
prefix puts `n + i + 2` into `start_line` when the scan starts the prefix
at line number `n`. -/
theorem scanLines_start_of_begins (p : List BLine) :
    ∀ (rest : List BLine) (i n : Nat) (l : BLine) (st : ScanState),
      (∀ l' ∈ p, l'.tag ≠ Tag.dataEnds) →
      p.get? i = some l → l.tag = Tag.dataBegins →
      (n + i + 2) ∈ (scanLines n (p ++ rest) st).start_line := by
  induction p with
  | nil => intro rest i n l st _ hget _; simp at hget
  | cons a p ih =>
    intro rest i n l st hfree hget hbeg
    have ha : a.tag ≠ Tag.dataEnds := hfree a (List.mem_cons_self a p)
    rw [List.cons_append, scanLines_cons, if_neg ha]
    cases i with
    | zero =>
      have hal : a = l := by simpa using hget
      have hmem : (n + 2) ∈ (stepLine n a.tag st).start_line := by
        rw [hal, hbeg]; simp [stepLine]
      have := scanLines_start_mono (p ++ rest) (n + 1) (stepLine n a.tag st) hmem
      simpa using this
    | succ j =>
      have hrec : ∀ l' ∈ p, l'.tag ≠ Tag.dataEnds :=
        fun l' h => hfree l' (List.mem_cons_of_mem a h)
      have hget' : p.get? j = some l := by simpa using hget
      have := ih rest j (n + 1) l (stepLine n a.tag st) hrec hget' hbeg
      have harith : (n + 1) + j + 2 = n + (j + 1) + 2 := by omega
      rwa [harith] at this

/-- C5: for a file whose header has a `'#DATA BEGINS'` marker at 1-based
line `b` and its `'#DATA ENDS'` terminator at line `e`, the header scanner
records the data-start line as `b + 2` and the data-end line as
`e - 1`. -/
theorem C5_scan_records_data_bounds (p s : List BLine) (d l : BLine) (b e : Nat)
    (hfree : ∀ l' ∈ p, l'.tag ≠ Tag.dataEnds)
    (hd : d.tag = Tag.dataEnds)
    (he : e = p.length + 1)
    (hb1 : 1 ≤ b)
    (hb : p.get? (b - 1) = some l) (hbl : l.tag = Tag.dataBegins) :
    (scanLines 1 (p ++ d :: s) {}).end_line = [e - 1] ∧
      (b + 2) ∈ (scanLines 1 (p ++ d :: s) {}).start_line := by
  constructor
  · rw [scanLines_end_line_eq p d s hfree hd 1 {}]
    simp [he]
  · have := scanLines_start_of_begins p (d :: s) (b - 1) 1 l {} hfree hb hbl
    have harith : 1 + (b - 1) + 2 = b + 2 := by omega
    rwa [harith] at this

/-- Witness for C5 at a concrete header: the begins marker on line 2, the
terminator on line 4, so data-start 4 and data-end 3 are recorded. -/
theorem C5_scan_records_data_bounds_witness :
    (scanLines 1 ([⟨Tag.detectorChannels 2, [], []⟩, ⟨Tag.dataBegins, [], []⟩,
        ⟨Tag.plain, ["A-AC1"], []⟩] ++ ⟨Tag.dataEnds, [], []⟩ :: []) {}).end_line = [4 - 1] ∧
      (2 + 2) ∈ (scanLines 1 ([⟨Tag.detectorChannels 2, [], []⟩, ⟨Tag.dataBegins, [], []⟩,
        ⟨Tag.plain, ["A-AC1"], []⟩] ++ ⟨Tag.dataEnds, [], []⟩ :: []) {}).start_line :=
  C5_scan_records_data_bounds _ _ _ ⟨Tag.dataBegins, [], []⟩ 2 4
    (by decide) rfl rfl (by decide) rfl rfl

/-- Python stride slice `l[::k]` as used at boxy.py lines 155-156:
`detect_num[::len(blk_names[0])]` picks, for each montage, the header
count contributed by the montage's first block; that is, the elements at
the indices divisible by `k` (possible in the source only for `k ≥ 1`). -/
def sliceStride (l : List α) (k : Nat) : List α :=
  (List.range l.length).filterMap (fun i => if i % k = 0 then l[i]? else none)

/-- Channel label built at boxy.py lines 157-159:
`'S' + str(src_num + 1) + '_D' + str(det_num + 1) + '_' + str(mtg_num + 1)`
from the 0-based loop indices. -/
def mkLabel (src det mtg : Nat) : String :=
  "S" ++ toString (src + 1) ++ "_D" ++ toString (det + 1) ++ "_" ++ toString (mtg + 1)

/-- Labels of one montage: detectors are the outer loop, sources the inner
loop (boxy.py lines 155-159). -/
def mtgLabels (D S mtg : Nat) : List String :=
  (List.range D).flatMap (fun det => (List.range S).map (fun src => mkLabel src det mtg))

/-- Label list across montages (the loop at boxy.py lines 153-159)
starting at montage index `m` for `rem` further montages: montage `m`
draws its detector and source counts from position `m` of the
stride-sliced header count lists; an out-of-range access is Python's
`IndexError`, modelled as `none`. -/
def labelsFrom (dnS snS : List Nat) : Nat → Nat → Option (List String)
  | _, 0 => some []
  | m, rem + 1 => do
    let D ← dnS[m]?
    let S ← snS[m]?
    let rest ← labelsFrom dnS snS (m + 1) rem
    pure (mtgLabels D S m ++ rest)

/-- The full `boxy_labels` list of `RawBOXY.__init__` (boxy.py lines
153-159): one iteration per montage name, header counts accessed through
the stride slice `[::len(blk_names[0])]`. -/
def boxyLabels (mtgCount L : Nat) (detect_num source_num : List Nat) : Option (List String) :=
  labelsFrom (sliceStride detect_num L) (sliceStride source_num L) 0 mtgCount

/-- Row index computed by `_read_segment_file` (boxy.py lines 333-338):
`detectors.index(i_detect) * source_num + (i_source - 1) +
data_types.index(i_data) * (source_num * detect_num)`. -/
def indexLoc (detPos iSource dtIdx S D : Nat) : Nat :=
  detPos * S + (iSource - 1) + dtIdx * (S * D)

/-- Number of label rows contributed by the montages strictly between
`m0` and `m`, each contributing `detect * source` rows. -/
def chanWidthSum (dnS snS : List Nat) (m0 m : Nat) : Nat :=
  ((List.range (m - m0)).map (fun j => dnS.getD (m0 + j) 0 * snS.getD (m0 + j) 0)).sum

theorem mtgLabels_length (D S mtg : Nat) : (mtgLabels D S mtg).length = D * S := by
  rw [mtgLabels, List.length_flatMap]
  have hmap : List.map (List.length ∘ fun det => (List.range S).map (fun src => mkLabel src det mtg))
      (List.range D) = List.map (fun _ => S) (List.range D) := by
    apply List.map_congr_left
    intro a _
    simp
  rw [hmap, List.map_const', List.sum_replicate, smul_eq_mul]
  simp [Nat.mul_comm]

theorem mtgLabels_getElem? (D S mtg d s : Nat) (hd : d < D) (hs : s < S) :
    (mtgLabels D S mtg)[d * S + s]? = some (mkLabel s d mtg) := by
  induction D with
  | zero => omega
  | succ D ih =>
    have hr : List.range (D + 1) = List.range D ++ [D] := by
      simpa using List.range_succ (n := D)
    rw [mtgLabels, hr, List.flatMap_append] at *
    rcases Nat.lt_or_ge d D with hdD | hdD
    · have hlen : d * S + s < ((List.range D).flatMap
          (fun det => (List.range S).map (fun src => mkLabel src det mtg))).length := by
        rw [← mtgLabels, mtgLabels_length]
        calc d * S + s < d * S + S := by omega
          _ = (d + 1) * S := by ring
          _ ≤ D * S := Nat.mul_le_mul_right S hdD
      rw [List.getElem?_append, if_pos hlen]
      exact ih hdD
    · have hdD' : d = D := by omega
      subst hdD'
      rw [List.getElem?_append, ← mtgLabels, mtgLabels_length]
      rw [if_neg (by omega)]
      have hidx : d * S + s - d * S = s := by omega
      rw [hidx]
      simp [List.getElem?_map, List.getElem?_range hs]

theorem chanWidthSum_self (dnS snS : List Nat) (m : Nat) :
    chanWidthSum dnS snS m m = 0 := by
  simp [chanWidthSum]

theorem chanWidthSum_step (dnS snS : List Nat) (m0 m : Nat) (h : m0 < m) :
    chanWidthSum dnS snS m0 m =
      dnS.getD m0 0 * snS.getD m0 0 + chanWidthSum dnS snS (m0 + 1) m := by
  have hm : m - m0 = (m - (m0 + 1)) + 1 := by omega
  rw [chanWidthSum, hm, List.range_succ_eq_map]
  rw [List.map_cons, List.sum_cons, List.map_map]
  congr 1
  rw [chanWidthSum]
  apply congrArg
  apply List.map_congr_left
  intro a _
  have hsh : m0 + (a + 1) = m0 + 1 + a := by omega
  simp [Function.comp_def, hsh]

theorem labelsFrom_getElem? (dnS snS : List Nat) :
    ∀ (rem m0 : Nat) (labels : List String),
      labelsFrom dnS snS m0 rem = some labels →
      ∀ (m D S d s : Nat), m0 ≤ m → m < m0 + rem →
        dnS[m]? = some D → snS[m]? = some S → d < D → s < S →
        labels[chanWidthSum dnS snS m0 m + (d * S + s)]? = some (mkLabel s d m) := by
  intro rem
  induction rem with
  | zero => intro m0 labels _ m D S d s hm0 hm; omega
  | succ rem ih =>
    intro m0 labels hlab m D S d s hm0 hm hD hS hd hs
    rw [labelsFrom] at hlab
    rcases hD0 : dnS[m0]? with _ | D0
    · rw [hD0] at hlab; simp at hlab
    rcases hS0 : snS[m0]? with _ | S0
    · rw [hD0, hS0] at hlab; simp at hlab
    rcases hrest : labelsFrom dnS snS (m0 + 1) rem with _ | rest
    · rw [hD0, hS0, hrest] at hlab; simp at hlab
    rw [hD0, hS0, hrest] at hlab
    simp at hlab
    subst hlab
    rcases Nat.eq_or_lt_of_le hm0 with hmeq | hmlt
    · rw [hmeq] at hD0 hS0
      rw [hmeq]
      have hDeq : D0 = D := by rw [hD0] at hD; exact Option.some.inj hD
      have hSeq : S0 = S := by rw [hS0] at hS; exact Option.some.inj hS
      subst hDeq
      subst hSeq
      rw [chanWidthSum_self]
      have hlen : 0 + (d * S0 + s) < (mtgLabels D0 S0 m).length := by
        rw [mtgLabels_length]
        calc 0 + (d * S0 + s) < d * S0 + S0 := by omega
          _ = (d + 1) * S0 := by ring
          _ ≤ D0 * S0 := Nat.mul_le_mul_right S0 hd
      rw [List.getElem?_append, if_pos hlen]
      simpa using mtgLabels_getElem? D0 S0 m d s hd hs
    · have hsum := chanWidthSum_step dnS snS m0 m hmlt
      have hgD0 : dnS.getD m0 0 = D0 := by
        simp [List.getD_eq_getElem?_getD, hD0]
      have hgS0 : snS.getD m0 0 = S0 := by
        simp [List.getD_eq_getElem?_getD, hS0]
      rw [hsum, hgD0, hgS0, List.getElem?_append, mtgLabels_length]
      rw [if_neg (by omega)]
      have hidx : D0 * S0 + chanWidthSum dnS snS (m0 + 1) m + (d * S + s) - D0 * S0 =
          chanWidthSum dnS snS (m0 + 1) m + (d * S + s) := by omega
      rw [hidx]
      exact ih (m0 + 1) rest hrest m D S d s (by omega) (by omega) hD hS hd hs

/-- C1: for every loaded recording, the channel label at the row position
the Segment Assembler writes via
`index_loc = detectorPosition * sourceCount + (source - 1) +
dataTypeIndex * (sourceCount * detectorCount)` (offset by the rows of the
preceding montages) is exactly the label `S<s+1>_D<d+1>_<m+1>` that the
Channel Labeler emits for that (montage, detector, source) triple with
detectors iterated outer and sources inner; the loaded `data_types` list
is the singleton `[datatype]`, so the data-type index is 0. -/
theorem C1_labels_agree_with_index_loc
    (mtgCount L : Nat) (detect_num source_num : List Nat) (labels : List String)
    (data_types : List String) (i_data : String)
    (hlab : boxyLabels mtgCount L detect_num source_num = some labels)
    (hdt : data_types = [i_data])
    (m D S d s : Nat) (hm : m < mtgCount)
    (hD : (sliceStride detect_num L)[m]? = some D)
    (hS : (sliceStride source_num L)[m]? = some S)
    (hd : d < D) (hs : s < S) :
    labels[chanWidthSum (sliceStride detect_num L) (sliceStride source_num L) 0 m
        + indexLoc d (s + 1) (data_types.indexOf i_data) S D]? = some (mkLabel s d m) := by
  have hidx : data_types.indexOf i_data = 0 := by
    rw [hdt]; exact List.indexOf_cons_self _ _
  have hloc : indexLoc d (s + 1) 0 S D = d * S + s := by
    simp [indexLoc]
  rw [hidx, hloc]
  rw [boxyLabels] at hlab
  exact labelsFrom_getElem? _ _ mtgCount 0 labels hlab m D S d s (Nat.zero_le m)
    (by omega) hD hS hd hs

/-- Witness for C1: two montages with counts (2 detectors, 3 sources) and
(1 detector, 2 sources); the row for montage 1, detector 0, source index 1
is row 6 + 1 = 7 and carries the label `S2_D1_2`. -/
theorem C1_labels_agree_with_index_loc_witness :
    ∃ labels, boxyLabels 2 1 [2, 1] [3, 2] = some labels ∧
      labels[chanWidthSum (sliceStride [2, 1] 1) (sliceStride [3, 2] 1) 0 1
          + indexLoc 0 (1 + 1) (List.indexOf "AC" ["AC"]) 2 1]? = some (mkLabel 1 0 1) :=
  ⟨_, rfl, C1_labels_agree_with_index_loc 2 1 [2, 1] [3, 2] _ ["AC"] "AC" rfl rfl
    1 1 2 0 1 (by decide) (by decide) (by decide) (by decide) (by decide)⟩

/-- Possible detector names (boxy.py lines 246-248). -/
def detectors : List String :=
  ["A", "B", "C", "D", "E", "F", "G", "H", "I", "J", "K", "L", "M",
   "N", "O", "P", "Q", "R", "S", "T", "U", "V", "W", "X", "Y", "Z"]

/-- Model of `np.arange(a, b, s)` over naturals: numpy defines the result
as the `ceil((stop - start) / step)` values `a, a + s, a + 2*s, ...`. -/
def arangeN (a b s : Nat) : List Nat :=
  (List.range ((b - a + s - 1) / s)).map (fun t => a + t * s)

/-- Strided row selection for the non-parsed layout (boxy.py lines
345-349): `np.arange(i_source - 1, int(meta_data['record'][-1]) *
source_num, source_num)` — start at offset `i_source - 1`, stop at the
last `record` value times the source count, stride by the source count. -/
def nonParsedTimePoints (iSource recLast S : Nat) : List Nat :=
  arangeN (iSource - 1) (recLast * S) S

/-- Row padding of boxy.py lines 287-295: each tokenized row is stored in
a row of width `len(col_names)`; short rows are right-padded with
uninitialised (`np.pad` mode `'empty'`, after `np.full(..., nan)`) cells,
modelled as `none`; a longer row makes `np.pad` raise, modelled as
`none` for the whole block. -/
def padTo (len : Nat) (r : List ℚ) : Option (List (Option ℚ)) :=
  if r.length ≤ len then some (r.map some ++ List.replicate (len - r.length) none) else none

/-- Column `j` of the padded row matrix (`boxy_array[:, j]`). -/
def columnAt (arr : List (List (Option ℚ))) (j : Nat) : List (Option ℚ) :=
  arr.map (fun row => row.getD j none)

/-- The `meta_data` lookup of boxy.py lines 297-308 for one key: the
column at the first index where `col_names == key` when the key is
present, else an empty list.  Only the `'record'` entry is consumed
downstream (line 347); the other keys are extracted identically and never
used afterwards. -/
def metaColumn (col_names : List String) (arr : List (List (Option ℚ))) (key : String) :
    List (Option ℚ) :=
  match col_names.findIdx? (· == key) with
  | some j => columnAt arr j
  | none => []

/-- The `raw_extras` dictionary stored by `RawBOXY.__init__` (boxy.py
lines 172-181) and read back by `_read_segment_file` (lines 235-243). -/
structure RawExtras where
  source_num : List Nat
  detect_num : List Nat
  start_line : List Nat
  end_line : List Nat
  filetype : List String
  files : List String
  montages : List String
  blocks : List (List String)
  data_types : List String
  deriving DecidableEq

/-- File index of block `i_blk` of montage `i_mtg` (boxy.py line 259):
`file_num = i_blk + (i_mtg * len(blocks[i_mtg]))`. -/
def fileNum (ex : RawExtras) (i_mtg i_blk : Nat) : Option Nat :=
  (ex.blocks[i_mtg]?).map (fun b => i_blk + i_mtg * b.length)

/-- Column-name list used for every by-name lookup in a block's data
region (boxy.py lines 264-271): taken from the line of the block's own
file whose 1-based number is `start_line[i_blk] - 1` — note the index
`i_blk` into `start_line`, not `file_num`.  A line number with no line
(so `col_names` is never assigned, Python's `NameError`) is `none`.
The 0-based list index is `start_line[i_blk] - 2`; start lines recorded
by the scanner are always ≥ 3, so the truncated subtraction is exact. -/
def colNamesUsed (ex : RawExtras) (fs : String → List BLine) (i_mtg i_blk : Nat) :
    Option (List String) := do
  let fn ← fileNum ex i_mtg i_blk
  let f ← ex.files[fn]?
  let sl_blk ← ex.start_line[i_blk]?
  ((fs f)[sl_blk - 2]?).map (·.names)

/-- Data rows of a block (boxy.py lines 272-276): the lines with
`start_line[file_num] < line_num <= end_line[file_num]`, each contributing
its numeric tokens. -/
def dataRows (lines : List BLine) (sl el : Nat) : List (List ℚ) :=
  ((lines.drop sl).take (el - sl)).map (·.nums)

/-- One block of `_read_segment_file` (boxy.py lines 258-370): read the
block's file, grab the column names and the data region, tokenize and pad
the rows, extract the `record` metadata column, allocate the zero matrix
whose shape depends on the layout tag, then run the
data-type × detector × source loop, writing each gathered series at row
`index_loc`.  Python exceptions (missing list index, missing column name,
`int(nan)`, shape mismatch in the row assignment) are modelled as
`none`.  `int(...)` truncation is modelled by the floor, exact for the
nonnegative `record` counters of BOXY files. -/
def assembleBlock (ex : RawExtras) (fs : String → List BLine) (i_mtg i_blk : Nat) :
    Option (List (List (Option ℚ))) := do
  let fn ← fileNum ex i_mtg i_blk
  let f ← ex.files[fn]?
  let lines := fs f
  let col_names ← colNamesUsed ex fs i_mtg i_blk
  let sl ← ex.start_line[fn]?
  let el ← ex.end_line[fn]?
  let boxy_data := dataRows lines sl el
  let boxy_array ← boxy_data.mapM (padTo col_names.length)
  let S ← ex.source_num[fn]?
  let D ← ex.detect_num[fn]?
  let ft ← ex.filetype[fn]?
  let meta_record := metaColumn col_names boxy_array "record"
  let nCols ←
    if ft = "non-parsed" then
      if S = 0 then none else some (boxy_data.length / S)
    else if ft = "parsed" then some boxy_data.length
    else none
  let data0 : List (List (Option ℚ)) :=
    List.replicate (D * S * ex.data_types.length) (List.replicate nCols (some (0 : ℚ)))
  ex.data_types.foldlM (fun acc i_data =>
    (detectors.take D).foldlM (fun acc i_detect =>
      ((List.range S).map (· + 1)).foldlM (fun acc i_source => do
        let loc := indexLoc (detectors.indexOf i_detect) i_source
          (ex.data_types.indexOf i_data) S D
        if ft = "non-parsed" then do
          let recLast ← meta_record.getLast?
          let recQ ← recLast
          let channel ← col_names.findIdx? (· == i_detect ++ "-" ++ i_data)
          let vals ← (nonParsedTimePoints i_source (⌊recQ⌋.toNat) S).mapM
            (fun t => boxy_array[t]?)
          let newRow := vals.map (fun row => row.getD channel none)
          if loc < acc.length ∧ newRow.length = nCols then pure (acc.set loc newRow) else none
        else if ft = "parsed" then do
          let channel ← col_names.findIdx? (· == i_detect ++ "-" ++ i_data ++ toString i_source)
          let newRow := boxy_array.map (fun row => row.getD channel none)
          if loc < acc.length ∧ newRow.length = nCols then pure (acc.set loc newRow) else none
        else pure acc) acc) acc) data0

/-- Model of `np.hstack` over the per-block matrices (boxy.py line 372):
blocks of a montage are concatenated along the time axis; numpy requires
at least one matrix and equal row counts. -/
def hstack : List (List (List (Option ℚ))) → Option (List (List (Option ℚ)))
  | [] => none
  | [m] => some m
  | m :: rest => do
    let r ← hstack rest
    if m.length = r.length then some (m.zipWith (· ++ ·) r) else none

/-- Model of `RawBOXY._read_segment_file` (boxy.py lines 228-383).  The requested
`start` and `stop` sample arguments appear in the Python signature but are
never read: the function re-reads and redistributes the whole data region
of every contributing file, stacks the blocks of a montage along the time
axis, stacks montages along the channel axis, and writes the result into
the caller's buffer (`data[:] = all_data`). -/
def readSegmentFile (ex : RawExtras) (fs : String → List BLine) (start stop : Nat) :
    Option (List (List (Option ℚ))) := do
  let mtxs ← (List.range ex.montages.length).mapM (fun i_mtg => do
    let blks ← ex.blocks[i_mtg]?
    let blockMats ← (List.range blks.length).mapM (fun i_blk => assembleBlock ex fs i_mtg i_blk)
    hstack blockMats)
  pure mtxs.flatten

/-- C10: the segment-read operation assembles the same data for every
requested sample range: `start` and `stop` are never used, each invocation
re-reads and redistributes the entire data region of every contributing
file. -/
theorem C10_output_independent_of_requested_range (ex : RawExtras) (fs : String → List BLine)
    (start1 stop1 start2 stop2 : Nat) :
    readSegmentFile ex fs start1 stop1 = readSegmentFile ex fs start2 stop2 := rfl

/-- Closed form of `np.arange(a, r * S, S)` for an offset `a < S`: the
`r` values `a, a + S, ..., a + (r - 1) * S`. -/
theorem arangeN_eq (a r S : Nat) (hS : 0 < S) (ha : a < S) :
    arangeN a (r * S) S = (List.range r).map (fun t => a + t * S) := by
  rw [arangeN]
  have hcount : (r * S - a + S - 1) / S = r := by
    rcases Nat.eq_zero_or_pos r with hr | hr
    · subst hr
      apply Nat.div_eq_of_lt
      omega
    · have hge : S ≤ r * S := by
        calc S = 1 * S := (Nat.one_mul S).symm
        _ ≤ r * S := Nat.mul_le_mul_right S hr
      have hnum : r * S - a + S - 1 = (S - 1 - a) + S * r := by
        have := Nat.mul_comm r S
        omega
      rw [hnum, Nat.add_mul_div_left _ _ hS, Nat.div_eq_of_lt (by omega)]
      omega
  rw [hcount]

/-- C2 (amended): in the non-parsed branch the Segment Assembler gathers
data rows at stride `sourceCount` starting at offset `s - 1 = a`, stopping
at `recordLast * sourceCount`, so the selected row indices are
`a, a + S, ..., a + (recordLast - 1) * S`: exactly `recordLast` timepoints
per source (not `recordLast / S`). -/
theorem C2_nonparsed_strided_selection (S r a : Nat) (hS : 0 < S) (ha : a < S) :
    nonParsedTimePoints (a + 1) r S = (List.range r).map (fun t => a + t * S) ∧
      (nonParsedTimePoints (a + 1) r S).length = r := by
  have h1 : nonParsedTimePoints (a + 1) r S = arangeN a (r * S) S := by
    simp [nonParsedTimePoints]
  rw [h1, arangeN_eq a r S hS ha]
  simp

/-- Witness for C2 at the spec's concrete numbers: source count 3, record
maximum 300, source 1 (offset 0): 300 selected rows 0, 3, 6, .... -/
theorem C2_nonparsed_strided_selection_witness :
    0 < 3 ∧ 0 < 3 ∧
      (nonParsedTimePoints (0 + 1) 300 3 = (List.range 300).map (fun t => 0 + t * 3) ∧
        (nonParsedTimePoints (0 + 1) 300 3).length = 300) :=
  ⟨by decide, by decide, C2_nonparsed_strided_selection 3 300 0 (by decide) (by decide)⟩

/-- Concrete non-parsed file: column names `record, A-AC`; 12
tab-delimited data rows (record value `i / 3 + 1`, so the record column's
last and maximum value is 4; data value `100 + i`); the data region spans
lines 3 to 14. -/
def fileNP : List BLine :=
  { names := ["record", "A-AC"] } :: ({} : BLine) ::
    (List.range 12).map (fun i => { nums := [((i / 3 + 1 : Nat) : ℚ), ((100 + i : Nat) : ℚ)] })

/-- Recording extras for the non-parsed demo file: one montage, one
block, one detector, source count 3, non-parsed layout. -/
def exNP : RawExtras :=
  { source_num := [3], detect_num := [1], start_line := [2], end_line := [14],
    filetype := ["non-parsed"], files := ["f.txt"], montages := ["a"],
    blocks := [["001"]], data_types := ["AC"] }

/-- End-to-end validation of the non-parsed branch: with source count 3
and record maximum 4, each of the three output rows holds the 4 data
values gathered at its source's offset 0, 1, 2 with stride 3. -/
theorem nonparsed_assembly_demo :
    readSegmentFile exNP (fun _ => fileNP) 0 0 =
      some ((List.range 3).map (fun a =>
        (List.range 4).map (fun t => some ((100 + (a + 3 * t) : Nat) : ℚ)))) := by
  decide

set_option maxRecDepth 10000 in
/-- Counterexample to C2 as stated: with source count 3 and record-column
maximum value 300, the strided row selection of the non-parsed branch
(starting offsets 0, 1, 2, stride 3) yields 300 timepoints per source,
not 100. -/
theorem C2_counterexample :
    ((nonParsedTimePoints 1 300 3).length = 300 ∧
        (nonParsedTimePoints 2 300 3).length = 300 ∧
        (nonParsedTimePoints 3 300 3).length = 300) ∧
      ¬ (nonParsedTimePoints 1 300 3).length = 100 := by
  refine ⟨⟨by decide, by decide, by decide⟩, by decide⟩

/-- Concrete parsed file for the C3 scenario: the column-name line (line
4) declares the six data columns `A-AC1 .. A-AC3, B-AC1 .. B-AC3`; the
data region spans lines 6 to 105, 100 rows, the cell of row `r` and
column `c` holding `10 * r + c`. -/
def fileC3 : List BLine :=
  [({} : BLine), {}, {},
    { names := ["A-AC1", "A-AC2", "A-AC3", "B-AC1", "B-AC2", "B-AC3"] }, {}]
  ++ (List.range 100).map (fun r => { nums := (List.range 6).map (fun c => ((10 * r + c : Nat) : ℚ)) })

/-- Recording extras for the C3 scenario: one montage, one block, header
declaring 2 detectors and 3 sources, parsed layout, data type AC. -/
def exC3 : RawExtras :=
  { source_num := [3], detect_num := [2], start_line := [5], end_line := [105],
    filetype := ["parsed"], files := ["anc071a.txt"], montages := ["a"],
    blocks := [["001"]], data_types := ["AC"] }

/-- C3: the parsed-layout scenario — 2 detectors, 3 sources, 100 data
rows with columns `A-AC1 .. B-AC3`, data type AC — yields a 6 × 100
matrix; row 0 (`index_loc` of detector position 0, source 1) is the full
contents of column `A-AC1` (column 0) and row 3 (`index_loc` of detector
position 1, source 1) the full contents of column `B-AC1` (column 3). -/
theorem C3_parsed_concrete_scenario :
    readSegmentFile exC3 (fun _ => fileC3) 0 99 =
        some ((List.range 6).map (fun i =>
          (List.range 100).map (fun r => some ((10 * r + i : Nat) : ℚ)))) ∧
      ((List.range 6).map (fun i =>
          (List.range 100).map (fun r => some ((10 * r + i : Nat) : ℚ)))).length = 6 ∧
      ((List.range 6).map (fun i =>
          (List.range 100).map (fun r => some ((10 * r + i : Nat) : ℚ)))).map List.length =
        List.replicate 6 100 ∧
      colNamesUsed exC3 (fun _ => fileC3) 0 0 =
        some ["A-AC1", "A-AC2", "A-AC3", "B-AC1", "B-AC2", "B-AC3"] ∧
      ((List.range 6).map (fun i =>
          (List.range 100).map (fun r => some ((10 * r + i : Nat) : ℚ))))[indexLoc 0 1 0 3 2]? =
        some ((dataRows fileC3 5 105).map (fun row => row[0]?)) ∧
      ((List.range 6).map (fun i =>
          (List.range 100).map (fun r => some ((10 * r + i : Nat) : ℚ))))[indexLoc 1 1 0 3 2]? =
        some ((dataRows fileC3 5 105).map (fun row => row[3]?)) := by
  refine ⟨by decide, by decide, by decide, by decide, by decide, by decide⟩

/-- Two-montage recording whose files have different data-start lines
(5 for montage a's file, 7 for montage b's file). -/
def exC4 : RawExtras :=
  { source_num := [1, 1], detect_num := [1, 1], start_line := [5, 7], end_line := [9, 12],
    filetype := ["parsed", "parsed"], files := ["x071a.001", "x071b.001"],
    montages := ["a", "b"], blocks := [["001"], ["001"]], data_types := ["AC"] }

/-- Montage b's file for the C4 scenario: its own column-name line (the
line just before its own data start 7, i.e. line 6) says `Y-AC1`, while
line 4 (the position montage a's start line points at) says `X-AC1`. -/
def fileC4b : List BLine :=
  [({} : BLine), {}, {}, { names := ["X-AC1"] }, {}, { names := ["Y-AC1"] }, {}]

/-- File system for the C4 scenario. -/
def fsC4 : String → List BLine := fun f =>
  if f = "x071b.001" then fileC4b
  else [({} : BLine), {}, {}, { names := ["X-AC1"] }, {}]

/-- C4 fails on the code: for montage b's block (`i_mtg = 1`, `i_blk = 0`,
`file_num = 1`), the column names are grabbed at line
`start_line[i_blk] - 1 = 4` — a line position taken from montage a's
file descriptor — rather than at the file's own header line
`start_line[file_num] - 1 = 6`, because boxy.py line 266 indexes
`start_line` with `i_blk` while the data region (lines 272-273) uses
`file_num`. -/
theorem C4_colnames_from_other_file_position :
    colNamesUsed exC4 fsC4 1 0 = some ["X-AC1"] ∧
      ((fsC4 "x071b.001")[(exC4.start_line.getD 1 0) - 2]?).map BLine.names = some ["Y-AC1"] ∧
      ¬ colNamesUsed exC4 fsC4 1 0 =
          ((fsC4 "x071b.001")[(exC4.start_line.getD 1 0) - 2]?).map BLine.names := by
  refine ⟨by decide, by decide, by decide⟩

/-- I/O actions `RawBOXY.__init__` performs: the `glob.glob` directory
listing (boxy.py line 83) and the per-file header reads (line 125). -/
inductive IOEvent where
  | dirList
  | fileRead (name : String)
  deriving DecidableEq

/-- Console consistency messages printed by `RawBOXY.__init__`
(boxy.py lines 184-202): start lines, end lines and data lengths are
compared across files — nothing else is. -/
inductive Msg where
  | startLinesSame
  | startLinesDifferent
  | endLinesSame
  | endLinesDifferent
  | dataSizesSame
  | dataSizesDifferent
  deriving DecidableEq

/-- Python exceptions `RawBOXY.__init__` can raise: the two explicit
`RuntimeError`s (file count, datatype) and the `IndexError` of an
out-of-range list access. -/
inductive LoadErr where
  | runtimeError (msg : String)
  | indexError
  deriving DecidableEq

/-- The recording `__init__` hands to the base class: channel labels, the
sampling frequency `srate[0]`, the `raw_extras`, and the sample bounds
`first_samps = 0`, `last_samps - 1`. -/
structure Recording where
  labels : List String
  sfreq : ℚ
  extras : RawExtras
  firstSamp : Nat
  lastSamp : Int
  deriving DecidableEq

/-- Outcome of `__init__`: I/O events performed, console messages
printed, and the constructed recording or the exception raised. -/
structure InitResult where
  events : List IOEvent
  msgs : List Msg
  result : Except LoadErr Recording

/-- Header-scan loop over all files (boxy.py lines 123-147): the
accumulator lists grow across the files; each file's scan starts with a
fresh `parsed` layout flag, recorded into the `filetype` list. -/
def scanFold (fs : String → List BLine) : List String → ScanState → List String →
    ScanState × List String
  | [], st, ft => (st, ft)
  | f :: rest, st, ft =>
    let st' := scanLines 1 (fs f) { st with nonParsed := false }
    scanFold fs rest st' (ft ++ [if st'.nonParsed then "non-parsed" else "parsed"])

/-- Python `len(set(l)) == 1`. -/
def allSame [DecidableEq α] (l : List α) : Bool := l.dedup.length == 1

/-- The `data_length` comprehension (boxy.py lines 196-197):
`end_line[i] - start_line[i]` for each index of `start_line`; a missing
`end_line` entry is Python's `IndexError`. -/
def dataLengths (start_line end_line : List Nat) : Option (List Int) :=
  (List.range start_line.length).mapM (fun i =>
    (end_line[i]?).map (fun e => (e : Int) - (start_line.getD i 0 : Int)))

/-- Recording assembled at boxy.py lines 217-226: `first_samps = 0`,
`last_samps - 1`. -/
def mkRecording (labels : List String) (sf : ℚ) (extras : RawExtras) (last : Int) : Recording :=
  { labels := labels, sfreq := sf, extras := extras, firstSamp := 0, lastSamp := last }

/-- Steps of `__init__` after the labels and the sampling rate are in
hand (boxy.py lines 183-226): print the three consistency checks, read
`start_line[0]`, `end_line[0]` and `filetype[0]`, derive `last_samps`
from the layout (`// source_num[0]` for non-parsed), and build the
recording with `first_samps = 0` and `last_samps - 1`.  In single-file
mode `len(blk_names[0]) = 1`. -/
def finishInit (datatype : String) (files : List String) (st : ScanState)
    (ft : List String) (labels : List String) (sf : ℚ) :
    List Msg × Except LoadErr Recording :=
  let extras : RawExtras :=
    { source_num := st.source_num, detect_num := st.detect_num,
      start_line := st.start_line, end_line := st.end_line, filetype := ft,
      files := files, montages := ["a"], blocks := [["001"]], data_types := [datatype] }
  let msgs1 := [if allSame st.start_line then Msg.startLinesSame else Msg.startLinesDifferent,
                if allSame st.end_line then Msg.endLinesSame else Msg.endLinesDifferent]
  match dataLengths st.start_line st.end_line with
  | none => (msgs1, Except.error LoadErr.indexError)
  | some dls =>
    let msgs := msgs1 ++ [if allSame dls then Msg.dataSizesSame else Msg.dataSizesDifferent]
    match (st.start_line[0]? : Option Nat), (st.end_line[0]? : Option Nat) with
    | some s0, some e0 =>
      let diff : Int := (e0 : Int) - (s0 : Int)
      match ft[0]? with
      | some f0 =>
        if f0 = "non-parsed" then
          match (st.source_num[0]? : Option Nat) with
          | some sn0 =>
            (msgs, Except.ok (mkRecording labels sf extras ((diff * 1).fdiv (sn0 : Int) - 1)))
          | none => (msgs, Except.error LoadErr.indexError)
        else if f0 = "parsed" then
          (msgs, Except.ok (mkRecording labels sf extras (diff * 1 - 1)))
        else (msgs, Except.error LoadErr.indexError)
      | none => (msgs, Except.error LoadErr.indexError)
    | _, _ => (msgs, Except.error LoadErr.indexError)

/-- Steps of `__init__` after the header scan (boxy.py lines 149-226): build the
channel labels (an out-of-range stride-slice access is `IndexError`),
then `create_info` with `srate[0]` (`IndexError` when no file declared a
rate), then the remaining steps. -/
def initAfterScan (datatype : String) (files : List String) (st : ScanState)
    (ft : List String) : List Msg × Except LoadErr Recording :=
  match boxyLabels 1 1 st.detect_num st.source_num with
  | none => ([], Except.error LoadErr.indexError)
  | some labels =>
    match st.srate[0]? with
    | none => ([], Except.error LoadErr.indexError)
    | some sf => finishInit datatype files st ft labels sf

/-- Model of `RawBOXY.__init__` in single-file mode (boxy.py lines 72-226),
returning the I/O events performed (the `glob` directory listing, then
one read per scanned file), the console consistency messages, and either
the constructed recording or the exception raised.  `globTxt` is the
sorted result of `glob.glob('<fname>/*.txt')`.  The multi-file filename
parsing (lines 100-110) is not modelled; in single-file mode
`blk_names = [['001']]` and `mtg_names = ['a']`.  The count check of
line 87 tests `len(files[key])` on the singleton wrapper list
`[glob.glob(...)]` — never the matches themselves — and is kept
verbatim; the datatype check of line 93 runs after the glob. -/
def boxyInit (globTxt : List String) (datatype : String) (fs : String → List BLine) :
    InitResult :=
  if ([globTxt] : List (List String)).length ≠ 1 then
    { events := [IOEvent.dirList], msgs := [],
      result := Except.error (LoadErr.runtimeError "Expect one file, got more") }
  else if datatype ∈ (["AC", "DC", "Ph"] : List String) then
    let p := scanFold fs globTxt {} []
    let mr := initAfterScan datatype globTxt p.1 p.2
    { events := IOEvent.dirList :: globTxt.map IOEvent.fileRead, msgs := mr.1, result := mr.2 }
  else
    { events := [IOEvent.dirList], msgs := [],
      result := Except.error (LoadErr.runtimeError ("Expect AC, DC, or Ph, got " ++ datatype)) }

/-- A minimal well-formed parsed BOXY file: one detector, one source,
update rate 50, data-begins marker on line 4 (so data start 6), the
column-name line on line 5, one data row on line 7, terminator on
line 8. -/
def stdFile : List BLine :=
  [{ tag := Tag.detectorChannels 1 }, { tag := Tag.externalMUXChannels 1 },
   { tag := Tag.updateRate 50 }, { tag := Tag.dataBegins },
   { names := ["A-AC1"] }, {}, { nums := [7] }, { tag := Tag.dataEnds }]

/-- Same file as `stdFile` but declaring update rate 60. -/
def stdFile60 : List BLine :=
  [{ tag := Tag.detectorChannels 1 }, { tag := Tag.externalMUXChannels 1 },
   { tag := Tag.updateRate 60 }, { tag := Tag.dataBegins },
   { names := ["A-AC1"] }, {}, { nums := [7] }, { tag := Tag.dataEnds }]

/-- A file with no recognised markers at all — in particular no
`'#DATA ENDS'` terminator. -/
def emptyFile : List BLine := [({} : BLine)]

/-- C6 fails on the code: a file that never contains `'#DATA ENDS'`
does not make loading raise any malformed-file error.  Scanning such a
file contributes no `end_line` entry, so the accumulator lists silently
misalign: with a second, well-formed file in the folder the load
*succeeds* (building the recording from the well-formed file's header
while keeping both files in `raw_extras`); with the terminator-less file
alone it dies with an `IndexError` from `detect_num[::1][0]`, not with a
malformed-file error. -/
theorem C6_missing_terminator_not_fatal :
    (∀ bl ∈ emptyFile, bl.tag ≠ Tag.dataEnds) ∧
      (∃ r, (boxyInit ["bad.txt", "good.txt"] "AC"
          (fun f => if f = "bad.txt" then emptyFile else stdFile)).result = Except.ok r ∧
        r.extras.files = ["bad.txt", "good.txt"] ∧ r.extras.end_line = [7]) ∧
      (boxyInit ["bad.txt"] "AC" (fun _ => emptyFile)).result =
        Except.error LoadErr.indexError := by
  refine ⟨by decide, ⟨_, rfl, rfl, rfl⟩, rfl⟩

/-- C7 fails on the code: the count check `len(files[key]) != 1`
(boxy.py line 87) inspects the singleton wrapper list `[glob.glob(...)]`
and can never fire.  With two `.txt` files in single-file mode the load
raises no error at all and builds a recording (from the first file's
header counts, with both files kept); with zero matching files it dies
later with an `IndexError`, not with the intended configuration error. -/
theorem C7_file_count_never_checked :
    (∃ r, (boxyInit ["a.txt", "b.txt"] "AC" (fun _ => stdFile)).result = Except.ok r ∧
        r.extras.files = ["a.txt", "b.txt"]) ∧
      (boxyInit [] "AC" (fun _ => stdFile)).result = Except.error LoadErr.indexError := by
  refine ⟨⟨_, rfl, rfl⟩, rfl⟩

/-- C8 (amended): an invalid `datatype` argument raises the
configuration error after the `glob` directory listing but before any
file is opened: the event trace of such a load is exactly the directory
listing, with no file read. -/
theorem C8_invalid_datatype_stops_before_file_reads (globTxt : List String) (dt : String)
    (fs : String → List BLine) (h : dt ∉ (["AC", "DC", "Ph"] : List String)) :
    (boxyInit globTxt dt fs).result =
        Except.error (LoadErr.runtimeError ("Expect AC, DC, or Ph, got " ++ dt)) ∧
      (boxyInit globTxt dt fs).events = [IOEvent.dirList] := by
  have h1 : ¬ (([globTxt] : List (List String)).length ≠ 1) := by simp
  rw [boxyInit, if_neg h1, if_neg h]
  exact ⟨rfl, rfl⟩

/-- Witness for C8 at a concrete invalid datatype. -/
theorem C8_invalid_datatype_stops_before_file_reads_witness :
    ("XX" ∉ (["AC", "DC", "Ph"] : List String)) ∧
      ((boxyInit ["a.txt"] "XX" (fun _ => stdFile)).result =
          Except.error (LoadErr.runtimeError ("Expect AC, DC, or Ph, got " ++ "XX")) ∧
        (boxyInit ["a.txt"] "XX" (fun _ => stdFile)).events = [IOEvent.dirList]) :=
  ⟨by decide,
    C8_invalid_datatype_stops_before_file_reads ["a.txt"] "XX" (fun _ => stdFile) (by decide)⟩

/-- Counterexample to C8 as stated: the directory *is* read (the `glob`
of boxy.py line 83) before the invalid-datatype error of line 96 is
raised, so "no file or directory is read prior to the error" is false. -/
theorem C8_counterexample :
    (boxyInit ["a.txt"] "XX" (fun _ => stdFile)).result =
        Except.error (LoadErr.runtimeError "Expect AC, DC, or Ph, got XX") ∧
      IOEvent.dirList ∈ (boxyInit ["a.txt"] "XX" (fun _ => stdFile)).events := by
  exact ⟨rfl, by decide⟩

/-- Two header tags that agree except possibly in the numeric value of a
sample-rate line. -/
def tagRateEquiv : Tag → Tag → Prop
  | Tag.updateRate _, Tag.updateRate _ => True
  | Tag.updataRate _, Tag.updataRate _ => True
  | t, t' => t = t'

/-- Two lines that agree except possibly in the value of a sample-rate
header line. -/
def lineRateEquiv (a b : BLine) : Prop :=
  a.names = b.names ∧ a.nums = b.nums ∧ tagRateEquiv a.tag b.tag

/-- Scan states agreeing on every field except the sample-rate values
(with equally many of them). -/
def ScanState.RateAgnostic (st st' : ScanState) : Prop :=
  st.detect_num = st'.detect_num ∧ st.source_num = st'.source_num ∧
    st.aux_num = st'.aux_num ∧ st.ccf_ha = st'.ccf_ha ∧
    st.srate.length = st'.srate.length ∧
    st.start_line = st'.start_line ∧ st.end_line = st'.end_line ∧
    st.nonParsed = st'.nonParsed

theorem tagRateEquiv_dataEnds {t t' : Tag} (h : tagRateEquiv t t') :
    (t = Tag.dataEnds) = (t' = Tag.dataEnds) := by
  cases t <;> cases t' <;> simp_all [tagRateEquiv]

theorem stepLine_rateAgnostic (n : Nat) {t t' : Tag} (h : tagRateEquiv t t')
    {st st' : ScanState} (hs : ScanState.RateAgnostic st st') :
    ScanState.RateAgnostic (stepLine n t st) (stepLine n t' st') := by
  obtain ⟨h1, h2, h3, h4, h5, h6, h7, h8⟩ := hs
  cases t <;> cases t' <;>
    simp_all [tagRateEquiv, stepLine, ScanState.RateAgnostic]

theorem scanLines_rateAgnostic {ls ls' : List BLine}
    (hf : List.Forall₂ lineRateEquiv ls ls') :
    ∀ (n : Nat) {st st' : ScanState}, ScanState.RateAgnostic st st' →
      ScanState.RateAgnostic (scanLines n ls st) (scanLines n ls' st') := by
  induction hf with
  | nil => intro n st st' hs; exact hs
  | @cons a b as bs ha hrest ih =>
    intro n st st' hs
    obtain ⟨hnm, hnu, ht⟩ := ha
    rw [scanLines_cons, scanLines_cons]
    by_cases hd : a.tag = Tag.dataEnds
    · have hd' : b.tag = Tag.dataEnds := by
        rw [← tagRateEquiv_dataEnds ht]; exact hd
      rw [if_pos hd, if_pos hd']
      obtain ⟨h1, h2, h3, h4, h5, h6, h7, h8⟩ := hs
      exact ⟨h1, h2, h3, h4, h5, h6, by rw [h7], h8⟩
    · have hd' : ¬ b.tag = Tag.dataEnds := by
        rw [← tagRateEquiv_dataEnds ht]; exact hd
      rw [if_neg hd, if_neg hd']
      exact ih (n + 1) (stepLine_rateAgnostic n ht hs)

theorem scanFold_rateAgnostic {fs fs' : String → List BLine}
    (hfs : ∀ f, List.Forall₂ lineRateEquiv (fs f) (fs' f)) :
    ∀ (files : List String) (st st' : ScanState) (ft : List String),
      ScanState.RateAgnostic st st' →
      ScanState.RateAgnostic (scanFold fs files st ft).1 (scanFold fs' files st' ft).1 ∧
        (scanFold fs files st ft).2 = (scanFold fs' files st' ft).2 := by
  intro files
  induction files with
  | nil => intro st st' ft hs; exact ⟨hs, rfl⟩
  | cons f rest ih =>
    intro st st' ft hs
    have hmk : ScanState.RateAgnostic { st with nonParsed := false }
        { st' with nonParsed := false } := by
      obtain ⟨h1, h2, h3, h4, h5, h6, h7, h8⟩ := hs
      exact ⟨h1, h2, h3, h4, h5, h6, h7, rfl⟩
    have hstep := scanLines_rateAgnostic (hfs f) 1 hmk
    have hflag : (scanLines 1 (fs f) { st with nonParsed := false }).nonParsed =
        (scanLines 1 (fs' f) { st' with nonParsed := false }).nonParsed :=
      hstep.2.2.2.2.2.2.2
    rw [scanFold, scanFold]
    rw [hflag]
    exact ih _ _ _ hstep

/-- Forget the stored sampling frequency of a load result. -/
def eraseRate : Except LoadErr Recording → Except LoadErr Recording
  | Except.ok r => Except.ok { r with sfreq := 0 }
  | Except.error e => Except.error e

theorem finishInit_rate_indep (datatype : String) (files : List String) (st : ScanState)
    (ft : List String) (labels : List String) (sf sf' : ℚ) :
    (finishInit datatype files st ft labels sf).1 =
        (finishInit datatype files st ft labels sf').1 ∧
      eraseRate (finishInit datatype files st ft labels sf).2 =
        eraseRate (finishInit datatype files st ft labels sf').2 := by
  rw [finishInit, finishInit]
  constructor <;> (repeat first | rfl | split)

theorem finishInit_st_eq (datatype : String) (files : List String) (ft : List String)
    (labels : List String) (sf : ℚ) {st st' : ScanState}
    (h1 : st.detect_num = st'.detect_num) (h2 : st.source_num = st'.source_num)
    (h6 : st.start_line = st'.start_line) (h7 : st.end_line = st'.end_line) :
    finishInit datatype files st ft labels sf = finishInit datatype files st' ft labels sf := by
  rw [finishInit, finishInit, h1, h2, h6, h7]

theorem initAfterScan_rateAgnostic (datatype : String) (files : List String)
    (ft : List String) {st st' : ScanState} (hs : ScanState.RateAgnostic st st') :
    (initAfterScan datatype files st ft).1 = (initAfterScan datatype files st' ft).1 ∧
      eraseRate (initAfterScan datatype files st ft).2 =
        eraseRate (initAfterScan datatype files st' ft).2 := by
  obtain ⟨h1, h2, h3, h4, h5, h6, h7, h8⟩ := hs
  rw [initAfterScan, initAfterScan, h1, h2]
  cases hlab : boxyLabels 1 1 st'.detect_num st'.source_num with
  | none => exact ⟨rfl, rfl⟩
  | some labels =>
    cases hsr : (st.srate[0]? : Option ℚ) with
    | none =>
      have hsr' : (st'.srate[0]? : Option ℚ) = none := by
        cases hl : st'.srate with
        | nil => rfl
        | cons q qs =>
          rw [hl] at h5
          cases hl0 : st.srate with
          | nil => rw [hl0] at h5; simp at h5
          | cons p ps => rw [hl0] at hsr; simp at hsr
      rw [hsr']
      exact ⟨rfl, rfl⟩
    | some sf =>
      cases hsr' : (st'.srate[0]? : Option ℚ) with
      | none =>
        cases hl : st.srate with
        | nil => rw [hl] at hsr; simp at hsr
        | cons p ps =>
          rw [hl] at h5
          cases hl0 : st'.srate with
          | nil => rw [hl0] at h5; simp at h5
          | cons q qs => rw [hl0] at hsr'; simp at hsr'
      | some sf' =>
        have hfin := finishInit_rate_indep datatype files st ft labels sf sf'
        have hfin2 := finishInit_st_eq datatype files ft labels sf' h1 h2 h6 h7
        exact ⟨hfin.1.trans (congrArg Prod.fst hfin2),
          hfin.2.trans (congrArg (fun p => eraseRate p.2) hfin2)⟩

/-- C9 (amended): if the contributing files report differing sample rates
the load behaves exactly as with agreeing rates, apart from the stored
sampling frequency: the same I/O happens, the very same console messages
are printed (so no warning about the divergence exists — the only
consistency messages concern start lines, end lines and data lengths),
and the result is identical up to the stored rate. -/
theorem C9_no_rate_divergence_warning (globTxt : List String) (dt : String)
    (fs fs' : String → List BLine)
    (h : ∀ f, List.Forall₂ lineRateEquiv (fs f) (fs' f)) :
    (boxyInit globTxt dt fs).msgs = (boxyInit globTxt dt fs').msgs ∧
      (boxyInit globTxt dt fs).events = (boxyInit globTxt dt fs').events ∧
      eraseRate (boxyInit globTxt dt fs).result =
        eraseRate (boxyInit globTxt dt fs').result := by
  have h1 : ¬ (([globTxt] : List (List String)).length ≠ 1) := by simp
  by_cases hdt : dt ∈ (["AC", "DC", "Ph"] : List String)
  · obtain ⟨hag, hft⟩ := scanFold_rateAgnostic h globTxt {} {} []
      ⟨rfl, rfl, rfl, rfl, rfl, rfl, rfl, rfl⟩
    simp only [boxyInit, if_neg h1, if_pos hdt]
    rw [← hft]
    exact ⟨(initAfterScan_rateAgnostic dt globTxt _ hag).1, trivial,
      (initAfterScan_rateAgnostic dt globTxt _ hag).2⟩
  · simp only [boxyInit, if_neg h1, if_neg hdt]
    refine ⟨?_, ?_, ?_⟩ <;> trivial

/-- File system reporting rate 50 in `a.txt` but rate 60 in `b.txt`. -/
def fsMixedRate : String → List BLine := fun f => if f = "b.txt" then stdFile60 else stdFile

theorem fsMixedRate_equiv :
    ∀ f, List.Forall₂ lineRateEquiv (fsMixedRate f) ((fun _ => stdFile) f) := by
  intro f
  by_cases hf : f = "b.txt" <;>
    simp [fsMixedRate, hf, stdFile, stdFile60, lineRateEquiv, tagRateEquiv]

/-- Witness for C9: the two-file folder with rates 50 and 60 prints the
same messages, performs the same I/O and loads the same recording (up to
the stored rate) as the folder where both files report 50. -/
theorem C9_no_rate_divergence_warning_witness :
    (∀ f, List.Forall₂ lineRateEquiv (fsMixedRate f) ((fun _ => stdFile) f)) ∧
      ((boxyInit ["a.txt", "b.txt"] "AC" fsMixedRate).msgs =
          (boxyInit ["a.txt", "b.txt"] "AC" (fun _ => stdFile)).msgs ∧
        (boxyInit ["a.txt", "b.txt"] "AC" fsMixedRate).events =
          (boxyInit ["a.txt", "b.txt"] "AC" (fun _ => stdFile)).events ∧
        eraseRate (boxyInit ["a.txt", "b.txt"] "AC" fsMixedRate).result =
          eraseRate (boxyInit ["a.txt", "b.txt"] "AC" (fun _ => stdFile)).result) :=
  ⟨fsMixedRate_equiv,
    C9_no_rate_divergence_warning ["a.txt", "b.txt"] "AC" fsMixedRate (fun _ => stdFile)
      fsMixedRate_equiv⟩

/-- Counterexample to C9 as stated: loading the folder whose two files
report rates 50 and 60 succeeds (keeping the first file's rate), but the
messages are exactly the three start/end/data-size checks — identical to
the equal-rate run — so no warning about the rate divergence is
emitted. -/
theorem C9_counterexample :
    (∃ r, (boxyInit ["a.txt", "b.txt"] "AC" fsMixedRate).result = Except.ok r ∧
        r.sfreq = 50) ∧
      (boxyInit ["a.txt", "b.txt"] "AC" fsMixedRate).msgs =
        [Msg.startLinesSame, Msg.endLinesSame, Msg.dataSizesSame] ∧
      (boxyInit ["a.txt", "b.txt"] "AC" fsMixedRate).msgs =
        (boxyInit ["a.txt", "b.txt"] "AC" (fun _ => stdFile)).msgs := by
  exact ⟨⟨_, rfl, rfl⟩, rfl, rfl⟩

end Boxy
